import Mathlib

/-!
Verification of the real-time watchlist server (server/index.js).

The development shallowly embeds the typed draft of the server
(src/server/index.js): the Alpha Vantage fetch helper `fetchStockData`,
the socket handlers for addStock and removeStock, and the per-connection
bootstrap.  The MongoDB collection of Stock documents is embedded as a
list of the stored symbol strings; the mongoose schema applies the
uppercase setter on save, the required validator rejects an empty string,
and the unique index raises a duplicate-key fault (error code 11000) when
the uppercased symbol is already stored.  Mongoose (v5 and later) also
applies schema setters to query filter values, so the findOne and
deleteOne filters are uppercased before matching the stored entries;
with the existence check thus normalized, the duplicate-key fault is
reachable only through a true insert race, modelled by an explicit list
of entries committed concurrently between the lookup and the save.

Numeric fields of the upstream payload reach the server as strings and
are parsed with the JS parseFloat (prices) and parseInt (volume); a raw
field is embedded by the result of the parser the code applies to it:
`RawNum.numeric q` when the parse yields the number q and
`RawNum.nonNumeric` when it yields NaN.  JS numbers that can be NaN are
embedded as `JsNumber`.  The sort comparator `new Date(a.date) - new
Date(b.date)` is embedded as an ascending sort on the date strings,
which agrees with chronological order on the ISO `YYYY-MM-DD` keys the
upstream uses.
-/

/-- Error kinds of the fetch helper, exactly the strings used in
server/index.js (`RATE_LIMIT`, `INVALID_SYMBOL`, `NO_DATA`, `API_ERROR`,
`FETCH_FAILED`). -/
inductive ErrKind where
  | RATE_LIMIT
  | INVALID_SYMBOL
  | NO_DATA
  | API_ERROR
  | FETCH_FAILED
deriving DecidableEq, Repr

/-- A JS number produced by parseFloat or parseInt: either NaN or an
ordinary numeric value (embedded as a rational). -/
inductive JsNumber where
  | nan
  | num (q : Rat)
deriving DecidableEq, Repr

/-- A raw upstream numeric field, abstracted by the outcome of the JS
parser the code applies to it: `numeric q` when parsing yields q,
`nonNumeric` when parsing yields NaN. -/
inductive RawNum where
  | numeric (q : Rat)
  | nonNumeric
deriving DecidableEq, Repr

/-- Result of applying the JS parser to a raw field (parseFloat and
parseInt never throw; an unparseable string yields NaN). -/
def parseNum : RawNum → JsNumber
  | .numeric q => .num q
  | .nonNumeric => .nan

/-- One upstream day entry: the five OHLCV fields of
`Time Series (Daily)` (keys `1. open` .. `5. volume`). -/
structure RawBar where
  open_ : RawNum
  high : RawNum
  low : RawNum
  close : RawNum
  volume : RawNum
deriving DecidableEq, Repr

/-- One formatted daily bar as built in fetchStockData (date string plus
parsed numeric fields). -/
structure DailyBar where
  date : String
  open_ : JsNumber
  high : JsNumber
  low : JsNumber
  close : JsNumber
  volume : JsNumber
deriving DecidableEq, Repr

/-- The formatted payload of a successful fetch: the symbol as passed to
fetchStockData and the list of formatted bars. -/
structure SeriesResult where
  symbol : String
  data : List DailyBar
deriving DecidableEq, Repr

/-- Outcome of fetchStockData: the success object with data, or the
typed error object with kind and message. -/
inductive FetchOutcome where
  | ok (data : SeriesResult)
  | err (kind : ErrKind) (message : String)
deriving DecidableEq, Repr

/-- The JSON body of an upstream response: the three fields the code
inspects (Error Message, Note, Time Series (Daily)), plus the number of
any other keys, which only matters for the `Object.keys(data).length`
emptiness test. -/
structure UpstreamResponse where
  errorMessage : Option String
  note : Option String
  timeSeries : Option (List (String × RawBar))
  extraFields : Nat
deriving DecidableEq, Repr

/-- JS truthiness of an optional string field: present and not the empty
string. -/
def jsTruthy : Option String → Bool
  | none => false
  | some s => !(s == "")

/-- Substring test on char lists, embedding `String.prototype.includes`. -/
def listIncludes (pat : List Char) : List Char → Bool
  | [] => pat.isEmpty
  | c :: rest => List.isPrefixOf pat (c :: rest) || listIncludes pat rest

/-- JS `s.includes(pat)`. -/
def jsIncludes (s pat : String) : Bool :=
  listIncludes pat.toList s.toList

/-- Number of keys of the embedded body, for `Object.keys(data).length`. -/
def keysLength (r : UpstreamResponse) : Nat :=
  (if r.errorMessage.isSome then 1 else 0) +
  (if r.note.isSome then 1 else 0) +
  (if r.timeSeries.isSome then 1 else 0) +
  r.extraFields

/-- The rate-limit phrase tested against the Error Message field
(server/index.js line 50). -/
def rateLimitErrPhrase : String :=
  "Thank you for using Alpha Vantage! Our standard API call frequency is 5 calls per minute and 500 calls per day."

/-- The rate-limit phrase tested against the Note field
(server/index.js line 55). -/
def rateLimitNotePhrase : String :=
  "thank you for using Alpha Vantage!"

/-- Message sent with either RATE_LIMIT outcome. -/
def rateLimitMessage : String :=
  "Alpha Vantage API rate limit exceeded. Please wait a minute."

/-- Message of the NO_DATA outcome. -/
def noDataMessage : String :=
  "No historical data found for this symbol. It might be invalid or not traded."

/-- Insert one bar into a date-ascending list (embedding of the JS
array sort by date; lexicographic order on the ISO date keys). -/
def insertBar (b : DailyBar) : List DailyBar → List DailyBar
  | [] => [b]
  | c :: rest => if c.date < b.date then c :: insertBar b rest else b :: c :: rest

/-- Sort bars ascending by date. -/
def sortBars : List DailyBar → List DailyBar
  | [] => []
  | b :: rest => insertBar b (sortBars rest)

/-- Format one upstream entry into a DailyBar, as in the map of
server/index.js lines 71-78. -/
def formatBar (e : String × RawBar) : DailyBar :=
  { date := e.1
    open_ := parseNum e.2.open_
    high := parseNum e.2.high
    low := parseNum e.2.low
    close := parseNum e.2.close
    volume := parseNum e.2.volume }

/-- Embedding of fetchStockData (server/index.js lines 41-86).  The
argument `resp` is the upstream round trip: `none` is a transport-level
fault (the axios call threw, the catch of lines 82-85), `some data` is a
received JSON body.  The branch structure follows the source: truthy
Error Message first (rate-limit phrase, else API_ERROR), then truthy
Note containing the note phrase, then the empty-object test, then the
missing Time Series (Daily) test, else the formatted success object. -/
def fetchStockData (symbol : String) (resp : Option UpstreamResponse) : FetchOutcome :=
  match resp with
  | none => .err .FETCH_FAILED "Failed to connect to stock data API."
  | some data =>
    if jsTruthy data.errorMessage then
      if jsIncludes (data.errorMessage.getD "") rateLimitErrPhrase then
        .err .RATE_LIMIT rateLimitMessage
      else
        .err .API_ERROR (data.errorMessage.getD "")
    else if jsTruthy data.note && jsIncludes (data.note.getD "") rateLimitNotePhrase then
      .err .RATE_LIMIT rateLimitMessage
    else if keysLength data == 0 then
      .err .INVALID_SYMBOL "Invalid stock symbol."
    else
      match data.timeSeries with
      | none => .err .NO_DATA noDataMessage
      | some ts => .ok { symbol := symbol, data := sortBars (ts.map formatBar) }

/-- The JS toUpperCase method applied by the mongoose
uppercase setter on save, embedded as the char-wise ASCII uppercase map
(the setter and this map agree on ticker strings). -/
def jsToUpperCase (s : String) : String :=
  String.mk (s.data.map Char.toUpper)

/-- Delivery target of a socket emission: `requester` is a
socket.emit unicast to the requesting connection, `all` is an io.emit
broadcast to every connection. -/
inductive Target where
  | requester
  | all
deriving DecidableEq, Repr

/-- The socket events the server emits.  `stockAlreadyExists` and
`stockAlreadyExistsMsg` are the two payload shapes of the one wire event
name stockAlreadyExists: the full series (line 129) and the
symbol-plus-message object (line 165). -/
inductive ServerEvent where
  | initialStocks (payload : List SeriesResult)
  | stockAdded (payload : SeriesResult)
  | stockAlreadyExists (payload : SeriesResult)
  | stockAlreadyExistsMsg (symbol message : String)
  | stockRemoved (symbol : String)
  | stockError (symbol message : String)
  | rateLimitExceeded (symbol message : String)
deriving DecidableEq, Repr

/-- One emission of the addStock handler, together with the store state
at the moment of emission (for the write-before-broadcast ordering). -/
structure Emission where
  target : Target
  event : ServerEvent
  storeAtEmit : List String
deriving DecidableEq, Repr

/-- Result of one addStock handler run: final store, the emissions in
order, and how many fetchStockData calls the run issued. -/
structure AddResult where
  store : List String
  trace : List Emission
  fetchesUsed : Nat
deriving DecidableEq, Repr

/-- Embedding of the addStock handler (server/index.js lines 121-172).
The store is the list of stored symbol strings; `upstream n` is the
upstream round trip answered to the handler run's n-th fetchStockData
call; `race` is the list of entries committed to the store by concurrent
operations in the window between this run's findOne and its save
attempt — the only window in which the duplicate-key fault can arise,
since the findOne filter is setter-cast.  Branches, in source order:
findOne (lines 124-135), whose filter value gets the schema uppercase
setter applied (mongoose v5+ runs schema setters on query filter
values), so the existence check matches the uppercased request against
the stored uppercase entries; on a hit, the already-exists unicast of
the freshly fetched series, or of the raw fetch error message (line
132); on a miss, fetch-error classification (lines 139-148); then save
(lines 151-152), on which the uppercase setter stores the uppercased
symbol, the required validator rejects an empty string before any
store round trip (a non-11000 fault landing in the generic catch of
lines 168-169), and the unique index raises duplicate-key 11000 when a
racing insert has committed the uppercased symbol meanwhile, landing in
the catch of lines 158-166 which fetches again and broadcasts the
re-fetched series (or unicasts the stockAlreadyExists message shape on
a failed re-fetch); finally the stockAdded broadcast after a successful
save (line 155).  Branches that never attempt the save return before
the race window and report the store as this run observed it. -/
def addStock (st : List String) (sym : String) (race : List String)
    (upstream : Nat → Option UpstreamResponse) : AddResult :=
  if jsToUpperCase sym ∈ st then
    match fetchStockData sym (upstream 0) with
    | .ok d => { store := st, trace := [⟨.requester, .stockAlreadyExists d, st⟩], fetchesUsed := 1 }
    | .err _ m => { store := st, trace := [⟨.requester, .stockError sym m, st⟩], fetchesUsed := 1 }
  else
    match fetchStockData sym (upstream 0) with
    | .err .RATE_LIMIT m =>
      { store := st, trace := [⟨.requester, .rateLimitExceeded sym m, st⟩], fetchesUsed := 1 }
    | .err .INVALID_SYMBOL _ =>
      { store := st
        trace := [⟨.requester, .stockError sym ("Could not find data for " ++ sym ++ ". Please check the symbol."), st⟩]
        fetchesUsed := 1 }
    | .err .NO_DATA _ =>
      { store := st
        trace := [⟨.requester, .stockError sym ("Could not find data for " ++ sym ++ ". Please check the symbol."), st⟩]
        fetchesUsed := 1 }
    | .err _ m =>
      { store := st
        trace := [⟨.requester, .stockError sym ("Failed to fetch data for " ++ sym ++ ": " ++ m), st⟩]
        fetchesUsed := 1 }
    | .ok d =>
      if jsToUpperCase sym = "" then
        { store := st, trace := [⟨.requester, .stockError sym "Server error adding stock.", st⟩], fetchesUsed := 1 }
      else if jsToUpperCase sym ∈ st ++ race then
        match fetchStockData sym (upstream 1) with
        | .ok d2 => { store := st ++ race, trace := [⟨.all, .stockAdded d2, st ++ race⟩], fetchesUsed := 2 }
        | .err _ m2 =>
          { store := st ++ race
            trace := [⟨.requester, .stockAlreadyExistsMsg sym m2, st ++ race⟩]
            fetchesUsed := 2 }
      else
        { store := (st ++ race) ++ [jsToUpperCase sym]
          trace := [⟨.all, .stockAdded d, (st ++ race) ++ [jsToUpperCase sym]⟩]
          fetchesUsed := 1 }

/-- Embedding of the removeStock handler (server/index.js lines
175-190): deleteOne whose filter value gets the schema uppercase setter
applied (as for findOne), so the uppercased request is matched against
the stored entries; then a stockRemoved broadcast carrying the raw
request string (line 182) when deletedCount is positive, else
nothing. -/
def removeStock (st : List String) (sym : String) : List String × List Emission :=
  let st' := st.erase (jsToUpperCase sym)
  let deletedCount := st.length - st'.length
  if deletedCount > 0 then (st', [⟨.all, .stockRemoved sym, st'⟩]) else (st', [])

/-- Embedding of the per-connection bootstrap (server/index.js lines
108-119): a faulting registry read lands in the catch and unicasts the
generic load failure; otherwise each stored symbol is fetched, failures
yield null and are dropped by filter(Boolean), and the surviving series
are unicast as initialStocks. -/
def connectionBootstrap (storeRead : Except String (List String))
    (upstream : String → Option UpstreamResponse) : List (Target × ServerEvent) :=
  match storeRead with
  | .error _ => [(.requester, .stockError "" "Failed to load initial stocks.")]
  | .ok syms =>
    [(.requester, .initialStocks (syms.filterMap (fun s =>
      match fetchStockData s (upstream s) with
      | .ok d => some d
      | .err _ _ => none)))]

/-! Concrete fixtures used by the closed witnesses and counterexamples. -/

/-- A raw day entry whose five fields all parse to the value v. -/
def mkRawBar (v : Rat) : RawBar :=
  { open_ := .numeric v, high := .numeric v, low := .numeric v, close := .numeric v, volume := .numeric v }

/-- A well-formed upstream body with one day entry of value v. -/
def mkResp (v : Rat) : UpstreamResponse :=
  { errorMessage := none, note := none, timeSeries := some [("2024-01-02", mkRawBar v)], extraFields := 0 }

/-- The SeriesResult that fetchStockData produces from mkResp v for the
given symbol. -/
def mkSeries (sym : String) (v : Rat) : SeriesResult :=
  { symbol := sym
    data := [{ date := "2024-01-02", open_ := .num v, high := .num v, low := .num v, close := .num v, volume := .num v }] }

/-- Upstream oracle answering the first fetch with mkResp v1 and every
later fetch with mkResp v2. -/
def upTwo (v1 v2 : Rat) : Nat → Option UpstreamResponse :=
  fun n => if n = 0 then some (mkResp v1) else some (mkResp v2)

/-- A daily-series body whose single entry has an unparseable open field. -/
def respBadNum : UpstreamResponse :=
  { errorMessage := none, note := none
    timeSeries := some [("2024-01-02",
      { open_ := .nonNumeric, high := .numeric 1, low := .numeric 1, close := .numeric 1, volume := .numeric 5 })]
    extraFields := 0 }

/-- A body with an error message lacking the error-body rate-limit
phrase while the note carries the note rate-limit phrase. -/
def respNoteRL : UpstreamResponse :=
  { errorMessage := some "boom", note := some rateLimitNotePhrase, timeSeries := none, extraFields := 0 }

/-- A body whose error message is exactly the error-body rate-limit
phrase. -/
def respErrRL : UpstreamResponse :=
  { errorMessage := some rateLimitErrPhrase, note := none, timeSeries := none, extraFields := 0 }

/-- A body with no error message and a note carrying the note rate-limit
phrase. -/
def respNoteOnlyRL : UpstreamResponse :=
  { errorMessage := none, note := some rateLimitNotePhrase, timeSeries := none, extraFields := 0 }

/-- A structurally empty body: no keys at all. -/
def respEmpty : UpstreamResponse :=
  { errorMessage := none, note := none, timeSeries := none, extraFields := 0 }

/-- A non-empty body with only unrecognized keys. -/
def respExtra : UpstreamResponse :=
  { errorMessage := none, note := none, timeSeries := none, extraFields := 3 }

/-- A body with a plain error message. -/
def respApiErr : UpstreamResponse :=
  { errorMessage := some "bad", note := none, timeSeries := none, extraFields := 0 }

/-- Upstream oracle of the bootstrap scenario: AAPL fetches fine, any
other symbol gets a plain error body. -/
def upBoot : String → Option UpstreamResponse :=
  fun s => if s = "AAPL" then some (mkResp 1) else some respApiErr

/-- Claim C2.  Validate-before-commit with error mapping: when the
requested symbol is not registered (its uppercase form, which is what
the setter-cast findOne filter matches, is not stored) and the fetch
returns an error outcome, the addStock handler leaves the store
unchanged and emits exactly one requester-directed notice, chosen by
the error kind: rateLimitExceeded for RATE_LIMIT, the symbol-not-found
stockError for INVALID_SYMBOL and NO_DATA, the generic fetch-failure
stockError for API_ERROR and FETCH_FAILED.  No broadcast occurs and
nothing is inserted, for any concurrent race. -/
theorem addStock_fetch_error_unicast (st : List String) (sym : String) (race : List String)
    (upstream : Nat → Option UpstreamResponse) (k : ErrKind) (m : String)
    (hmem : jsToUpperCase sym ∉ st) (hf : fetchStockData sym (upstream 0) = .err k m) :
    addStock st sym race upstream =
      { store := st
        trace := [⟨.requester,
          match k with
          | .RATE_LIMIT => .rateLimitExceeded sym m
          | .INVALID_SYMBOL => .stockError sym ("Could not find data for " ++ sym ++ ". Please check the symbol.")
          | .NO_DATA => .stockError sym ("Could not find data for " ++ sym ++ ". Please check the symbol.")
          | .API_ERROR => .stockError sym ("Failed to fetch data for " ++ sym ++ ": " ++ m)
          | .FETCH_FAILED => .stockError sym ("Failed to fetch data for " ++ sym ++ ": " ++ m), st⟩]
        fetchesUsed := 1 } := by
  cases k <;> simp [addStock, hmem, hf]

/-- Witness for C2 at a concrete input: an API_ERROR fetch outcome for an
unregistered symbol yields only the generic fetch-failure unicast and an
unchanged empty store. -/
theorem addStock_fetch_error_unicast_witness :
    addStock [] "QQ" [] (fun _ => some respApiErr) =
      { store := []
        trace := [⟨.requester, .stockError "QQ" "Failed to fetch data for QQ: bad", []⟩]
        fetchesUsed := 1 } :=
  addStock_fetch_error_unicast [] "QQ" [] (fun _ => some respApiErr) .API_ERROR "bad" (by decide) rfl

/-- Claim C5.  Empty-versus-missing-field classification: a body with
none of the recognized fields classifies INVALID_SYMBOL when it has no
keys at all, and NO_DATA when unrecognized keys make it non-empty. -/
theorem fetch_empty_vs_missing_field (sym : String) (resp : UpstreamResponse)
    (he : resp.errorMessage = none) (hn : resp.note = none) (ht : resp.timeSeries = none) :
    fetchStockData sym (some resp) =
      (if resp.extraFields = 0 then .err .INVALID_SYMBOL "Invalid stock symbol."
       else .err .NO_DATA noDataMessage) := by
  by_cases hx : resp.extraFields = 0 <;>
    simp [fetchStockData, jsTruthy, keysLength, he, hn, ht, hx]

/-- Witness for C5 at concrete inputs: the empty body classifies
INVALID_SYMBOL and a body of three unrecognized keys classifies
NO_DATA. -/
theorem fetch_empty_vs_missing_field_witness :
    fetchStockData "TSLA" (some respEmpty) = .err .INVALID_SYMBOL "Invalid stock symbol." ∧
    fetchStockData "TSLA" (some respExtra) = .err .NO_DATA noDataMessage :=
  ⟨fetch_empty_vs_missing_field "TSLA" respEmpty rfl rfl rfl,
   fetch_empty_vs_missing_field "TSLA" respExtra rfl rfl rfl⟩

/-- Claim C8.  Remove flow: when the deletion removes an entry (the
setter-cast filter, the uppercased request, matches a stored entry),
the stockRemoved broadcast carrying just the request symbol goes to all
connections; when the symbol was never registered (the uppercased
request matches nothing, so the deletion removes nothing) there is no
emission at all: no broadcast and no requester error. -/
theorem removeStock_flow (st : List String) (sym : String) :
    (jsToUpperCase sym ∈ st →
      removeStock st sym =
        (st.erase (jsToUpperCase sym), [⟨.all, .stockRemoved sym, st.erase (jsToUpperCase sym)⟩])) ∧
    (jsToUpperCase sym ∉ st → removeStock st sym = (st, [])) := by
  constructor
  · intro h
    have hlen : (st.erase (jsToUpperCase sym)).length + 1 = st.length :=
      List.length_erase_add_one h
    have hpos : st.length - (st.erase (jsToUpperCase sym)).length > 0 := by omega
    simp [removeStock, hpos]
  · intro h
    simp [removeStock, List.erase_of_not_mem h]

/-- Witness for C8 at concrete inputs: removing the registered AAPL
broadcasts stockRemoved and empties the store; removing the
never-registered MSFT changes nothing and emits nothing. -/
theorem removeStock_flow_witness :
    removeStock ["AAPL"] "AAPL" = ([], [⟨.all, .stockRemoved "AAPL", []⟩]) ∧
    removeStock ["AAPL"] "MSFT" = (["AAPL"], []) :=
  ⟨(removeStock_flow ["AAPL"] "AAPL").1 (by decide),
   (removeStock_flow ["AAPL"] "MSFT").2 (by decide)⟩

/-- Counterexample to claim C10: remove is not case-sensitive.  With
AAPL stored, the remove request aapl — a string that is not the stored
uppercase form — deletes the entry and broadcasts stockRemoved, because
the schema uppercase setter is applied to the deleteOne filter value
before matching. -/
theorem remove_case_insensitive_cex :
    removeStock ["AAPL"] "aapl" = ([], [⟨.all, .stockRemoved "aapl", []⟩]) := by
  have h : jsToUpperCase "aapl" ∈ ["AAPL"] := by decide
  have hlen : ((["AAPL"] : List String).erase (jsToUpperCase "aapl")).length + 1 =
      (["AAPL"] : List String).length := List.length_erase_add_one h
  have hpos : (["AAPL"] : List String).length -
      ((["AAPL"] : List String).erase (jsToUpperCase "aapl")).length > 0 := by omega
  simp [removeStock, hpos]
  decide

/-- Claim C10 as amended.  Remove is effectively case-insensitive: the
schema uppercase setter applies to the deleteOne filter, so a request
string that is not its own uppercase form still deletes the stored
uppercase entry and broadcasts a stockRemoved event — carrying the raw
request string — to all connections. -/
theorem remove_case_insensitive_amended (st : List String) (sym : String)
    (_hneq : jsToUpperCase sym ≠ sym) (h : jsToUpperCase sym ∈ st) :
    removeStock st sym =
      (st.erase (jsToUpperCase sym), [⟨.all, .stockRemoved sym, st.erase (jsToUpperCase sym)⟩]) := by
  have hlen : (st.erase (jsToUpperCase sym)).length + 1 = st.length :=
    List.length_erase_add_one h
  have hpos : st.length - (st.erase (jsToUpperCase sym)).length > 0 := by omega
  simp [removeStock, hpos]

/-- Witness for amended C10 at a concrete input: with AAPL stored,
removing the lowercase aapl deletes the entry and broadcasts the raw
request string. -/
theorem remove_case_insensitive_witness :
    removeStock ["AAPL"] "aapl" =
      ((["AAPL"] : List String).erase (jsToUpperCase "aapl"),
       [⟨.all, .stockRemoved "aapl", (["AAPL"] : List String).erase (jsToUpperCase "aapl")⟩]) :=
  remove_case_insensitive_amended ["AAPL"] "aapl" (by decide) (by decide)

/-- Counterexample to claim C4: this body contains, in its Note field,
exactly the phrase the note rate-limit detection tests for, yet the
fetch classifies it API_ERROR, because the truthy Error Message branch
runs first and its check uses a different phrase. -/
theorem fetch_note_phrase_api_error_cex :
    jsIncludes (respNoteRL.note.getD "") rateLimitNotePhrase = true ∧
    fetchStockData "AAPL" (some respNoteRL) = .err .API_ERROR "boom" :=
  ⟨rfl, rfl⟩

/-- Claim C4 as amended.  Rate-limit classification priority, per
detection site: a truthy error body containing the error-body rate-limit
phrase classifies RATE_LIMIT; with no truthy error body, a truthy note
containing the note rate-limit phrase classifies RATE_LIMIT.  In either
case the outcome is RATE_LIMIT, never API_ERROR; but a truthy error body
lacking its phrase classifies API_ERROR even when the note carries the
note phrase. -/
theorem fetch_rate_limit_priority_amended (sym : String) (resp : UpstreamResponse)
    (h : (jsTruthy resp.errorMessage = true ∧
            jsIncludes (resp.errorMessage.getD "") rateLimitErrPhrase = true) ∨
         (jsTruthy resp.errorMessage = false ∧ jsTruthy resp.note = true ∧
            jsIncludes (resp.note.getD "") rateLimitNotePhrase = true)) :
    fetchStockData sym (some resp) = .err .RATE_LIMIT rateLimitMessage := by
  rcases h with ⟨h1, h2⟩ | ⟨h1, h2, h3⟩
  · simp [fetchStockData, h1, h2]
  · simp [fetchStockData, h1, h2, h3]

/-- Witness for amended C4 at concrete inputs: the error-body phrase in
the error body, and the note phrase in the note of a body with no error,
both classify RATE_LIMIT. -/
theorem fetch_rate_limit_priority_witness :
    fetchStockData "AAPL" (some respErrRL) = .err .RATE_LIMIT rateLimitMessage ∧
    fetchStockData "AAPL" (some respNoteOnlyRL) = .err .RATE_LIMIT rateLimitMessage :=
  ⟨fetch_rate_limit_priority_amended "AAPL" respErrRL (Or.inl ⟨rfl, rfl⟩),
   fetch_rate_limit_priority_amended "AAPL" respNoteOnlyRL (Or.inr ⟨rfl, rfl, rfl⟩)⟩

/-- Counterexample to claim C6: a daily-series body whose single entry
has an unparseable open field still yields a success outcome whose bar
carries NaN in that field, not an Err(FETCH_FAILED): parseFloat and
parseInt never fail, they produce NaN. -/
theorem fetch_parse_failure_ok_cex :
    fetchStockData "IBM" (some respBadNum) =
      .ok { symbol := "IBM"
            data := [{ date := "2024-01-02", open_ := .nan, high := .num 1,
                       low := .num 1, close := .num 1, volume := .num 5 }] } :=
  rfl

/-- Claim C6 as amended.  A received body never classifies FETCH_FAILED
(that kind arises only from a transport-level fault), and a body with no
error or note fields that carries a daily series always yields a success
outcome, regardless of how its numeric fields parse. -/
theorem fetch_no_fetch_failed_from_body (sym : String) (resp : UpstreamResponse) :
    (∀ m, fetchStockData sym (some resp) ≠ .err .FETCH_FAILED m) ∧
    (resp.errorMessage = none → resp.note = none →
      ∀ ts, resp.timeSeries = some ts → ∃ d, fetchStockData sym (some resp) = .ok d) := by
  constructor
  · intro m h
    simp only [fetchStockData] at h
    repeat' split at h
    all_goals simp_all
  · intro he hn ts ht
    refine ⟨{ symbol := sym, data := sortBars (ts.map formatBar) }, ?_⟩
    simp [fetchStockData, jsTruthy, keysLength, he, hn, ht]

/-- Witness for amended C6 at the concrete input with an unparseable
field: the outcome is a success object, hence not FETCH_FAILED. -/
theorem fetch_no_fetch_failed_from_body_witness :
    ∃ d, fetchStockData "IBM" (some respBadNum) = .ok d :=
  (fetch_no_fetch_failed_from_body "IBM" respBadNum).2 rfl rfl _ rfl

/-- Counterexample to claim C3: an add that loses a true insert race
(empty store at lookup time, a concurrent add of AAPL committing before
the save) reaches the duplicate-key catch, where the handler does issue
a second fetch (fetchesUsed is 2, not 1) and broadcasts the re-fetched
series, not the already-fetched one: with the first fetch answering
value 1 and the second answering value 2, the broadcast payload is the
value-2 series, which differs from the value-1 series the claim says is
reused. -/
theorem addStock_duplicate_refetch_cex :
    (addStock [] "AAPL" ["AAPL"] (upTwo 1 2)).fetchesUsed = 2 ∧
    (addStock [] "AAPL" ["AAPL"] (upTwo 1 2)).trace =
      [⟨.all, .stockAdded (mkSeries "AAPL" 2), ["AAPL"]⟩] ∧
    mkSeries "AAPL" 2 ≠ mkSeries "AAPL" 1 :=
  ⟨rfl, rfl, by decide⟩

/-- Claim C3 as amended.  Duplicate-race fold with re-fetch: when an add
loses a true insert race (its lookup missed, its first fetch succeeded,
and a concurrent insert committed the symbol before its save, raising
the duplicate-key fault), the handler issues a second fetch; if it
succeeds the re-fetched series is broadcast as stockAdded to all
connections with no error to the requester, and if it fails a
stockAlreadyExists notice carrying the failure message is unicast to the
requester; this run inserts nothing either way. -/
theorem addStock_duplicate_race_amended (st : List String) (sym : String) (race : List String)
    (upstream : Nat → Option UpstreamResponse) (d1 : SeriesResult)
    (hmem : jsToUpperCase sym ∉ st) (hf : fetchStockData sym (upstream 0) = .ok d1)
    (hne : jsToUpperCase sym ≠ "") (hdup : jsToUpperCase sym ∈ st ++ race) :
    (addStock st sym race upstream).store = st ++ race ∧
    (addStock st sym race upstream).fetchesUsed = 2 ∧
    (addStock st sym race upstream).trace =
      (match fetchStockData sym (upstream 1) with
       | .ok d2 => [⟨.all, .stockAdded d2, st ++ race⟩]
       | .err _ m2 => [⟨.requester, .stockAlreadyExistsMsg sym m2, st ++ race⟩]) := by
  cases hf2 : fetchStockData sym (upstream 1) with
  | ok d2 => simp [addStock, hmem, hf, hne, hdup, hf2]
  | err k2 m2 => simp [addStock, hmem, hf, hne, hdup, hf2]

/-- Witness for amended C3 at a concrete input: the race-losing add of
AAPL consumes two fetches, inserts nothing itself and broadcasts the
second fetch result. -/
theorem addStock_duplicate_race_witness :
    (addStock [] "AAPL" ["AAPL"] (upTwo 1 2)).store = ["AAPL"] ∧
    (addStock [] "AAPL" ["AAPL"] (upTwo 1 2)).fetchesUsed = 2 ∧
    (addStock [] "AAPL" ["AAPL"] (upTwo 1 2)).trace =
      [⟨.all, .stockAdded (mkSeries "AAPL" 2), ["AAPL"]⟩] :=
  addStock_duplicate_race_amended [] "AAPL" ["AAPL"] (upTwo 1 2) (mkSeries "AAPL" 1)
    (by decide) rfl (by decide) (by decide)

/-- Claim C9.  Bootstrap resilience: on a successful registry read the
single unicast initialStocks payload holds exactly the series of the
stored symbols whose fetch succeeded (failing fetches are dropped,
blocking nothing), and a faulting registry read yields only the generic
load-failure unicast. -/
theorem bootstrap_resilience (syms : List String) (upstream : String → Option UpstreamResponse)
    (fault : String) :
    (∃ payload, connectionBootstrap (.ok syms) upstream = [(.requester, .initialStocks payload)] ∧
      ∀ d, d ∈ payload ↔ ∃ s ∈ syms, fetchStockData s (upstream s) = .ok d) ∧
    connectionBootstrap (.error fault) upstream =
      [(.requester, .stockError "" "Failed to load initial stocks.")] := by
  refine ⟨⟨_, rfl, fun d => ?_⟩, rfl⟩
  rw [List.mem_filterMap]
  constructor
  · rintro ⟨s, hs, h⟩
    refine ⟨s, hs, ?_⟩
    cases hfo : fetchStockData s (upstream s) with
    | ok d0 =>
      rw [hfo] at h
      simp at h
      subst h
      rfl
    | err k m =>
      rw [hfo] at h
      simp at h
  · rintro ⟨s, hs, h⟩
    exact ⟨s, hs, by rw [h]⟩

/-- Witness for C9 at the spec scenario: with AAPL and ZZZZINVALID
stored and ZZZZINVALID failing to fetch, the payload holds exactly the
AAPL series; a faulting registry read yields the generic notice. -/
theorem bootstrap_resilience_witness :
    (∃ payload,
      connectionBootstrap (.ok ["AAPL", "ZZZZINVALID"]) upBoot =
        [(.requester, .initialStocks payload)] ∧
      ∀ d, d ∈ payload ↔
        ∃ s ∈ ["AAPL", "ZZZZINVALID"], fetchStockData s (upBoot s) = .ok d) ∧
    connectionBootstrap (.error "db down") upBoot =
      [(.requester, .stockError "" "Failed to load initial stocks.")] :=
  bootstrap_resilience ["AAPL", "ZZZZINVALID"] upBoot "db down"
